import Mathlib

/-!
Shallow embedding of the gobmp decoder/publisher subset: the BGP-LS link
descriptor TLV walker, the BGP-LS node-flags accessor, the EVPN MAC/IP
Advertisement parser, and the Kafka publisher (topic dispatch, broker
address validation, topic provisioning, stop).

Go byte slices are modelled as `List (Fin 256)`; a Go function returning
`(value, error)` is modelled as `GoRes`, whose `panic` constructor stands
for a Go runtime panic (index or slice out of range, close of a closed
channel), which is a distinct outcome from returning a non-nil `error`.
-/

namespace Gobmp

/-- Go uint8, the element type of a byte slice. -/
abbrev Byte := Fin 256

/-- Outcome of a Go call: `ok v` is `return v, nil`; `err e` is a non-nil
error return; `panic` is a runtime panic (out-of-range index or slice,
close of closed channel). -/
inductive GoRes (α : Type) where
  | ok (val : α)
  | err (msg : String)
  | panic
  deriving DecidableEq, Repr

/-- Propagation of errors and panics through sequenced Go statements:
`if err != nil { return nil, err }` after each call, and a panic aborts
everything. -/
def GoRes.bind {α β : Type} : GoRes α → (α → GoRes β) → GoRes β
  | .ok a, f => f a
  | .err e, _ => .err e
  | .panic, _ => .panic

instance : Monad GoRes where
  pure := GoRes.ok
  bind := GoRes.bind

/-- Go slice expression `b[i:j]`: panics unless `i ≤ j ≤ len(b)`. -/
def sliceOrPanic (b : List Byte) (i j : Nat) : GoRes (List Byte) :=
  if i ≤ j ∧ j ≤ b.length then .ok ((b.drop i).take (j - i)) else .panic

/-- Go index expression `b[i]`: panics unless `i < len(b)`. -/
def indexOrPanic (b : List Byte) (i : Nat) : GoRes Byte :=
  if h : i < b.length then .ok (b.get ⟨i, h⟩) else .panic

/-- Big-endian 16-bit read, `binary.BigEndian.Uint16` on two bytes. -/
def uint16BE (b0 b1 : Byte) : Nat := b0.val * 256 + b1.val

/-- Big-endian 16-bit write: the two bytes whose `uint16BE` is `n % 65536`. -/
def enc16 (n : Nat) : List Byte :=
  [⟨n / 256 % 256, Nat.mod_lt _ (by norm_num)⟩,
   ⟨n % 256, Nat.mod_lt _ (by norm_num)⟩]

namespace Base

/-- Link Descriptor TLV object of pkg/base (part_001): `Type uint16`,
`Length uint16`, `Value []byte`. -/
structure LinkDescriptorTLV where
  type : Nat
  length : Nat
  value : List Byte
  deriving DecidableEq, Repr

/-- UnmarshalLinkDescriptorTLV of part_001, with the unconsumed suffix
`b[p:]` as the argument. Each iteration reads `b[p:p+2]` and `b[p+2:p+4]`
(each slice panics when it overruns; with 1 byte left the first read
panics, with 2 or 3 the second does, so any nonempty suffix shorter than
4 panics), copies exactly `Length` bytes from `b[p+4:p+4+Length]` (panics
when `Length` overruns the buffer), appends the TLV, and advances by
`4 + Length`. The Go function returns a nil error on every
non-panicking path. -/
def UnmarshalLinkDescriptorTLV : List Byte → GoRes (List LinkDescriptorTLV)
  | [] => .ok []
  | [_] => .panic
  | [_, _] => .panic
  | [_, _, _] => .panic
  | b0 :: b1 :: b2 :: b3 :: rest =>
    let t := uint16BE b0 b1
    let len := uint16BE b2 b3
    if len ≤ rest.length then
      match UnmarshalLinkDescriptorTLV (rest.drop len) with
      | .ok tlvs => .ok ({ type := t, length := len, value := rest.take len } :: tlvs)
      | .err e => .err e
      | .panic => .panic
    else .panic
termination_by l => l.length
decreasing_by simp [List.length_drop]; omega

/-- Wire form of one TLV: two type bytes, two length bytes, the value. -/
def encodeTLV (t : LinkDescriptorTLV) : List Byte :=
  enc16 t.type ++ enc16 t.length ++ t.value

/-- Wire form of a TLV sequence. -/
def encodeTLVs (ts : List LinkDescriptorTLV) : List Byte :=
  (ts.map encodeTLV).flatten

/-- Truncated inputs in the claim's sense: walking four-byte headers, at
some point a nonempty suffix has fewer than 4 bytes left, or a declared
length exceeds the remaining buffer. -/
def truncatedTLVInput : List Byte → Bool
  | [] => false
  | [_] => true
  | [_, _] => true
  | [_, _, _] => true
  | _ :: _ :: b2 :: b3 :: rest =>
    let len := uint16BE b2 b3
    if len ≤ rest.length then truncatedTLVInput (rest.drop len) else true
termination_by l => l.length
decreasing_by simp [List.length_drop]; omega

/-- Modelled from the spec: pkg/base's route distinguisher type is not under
src/. Section 4.1: DecodeRD takes 8 bytes, the first two are the type (0, 1
or 2) and the remaining 6 the type-dependent body, kept raw here; it fails
on a type above 2 (ErrInvalidField) and on short input (ErrTruncated). -/
structure RD where
  rdType : Nat
  value : List Byte
  deriving DecidableEq, Repr

/-- Modelled from the spec: MakeRD of pkg/base (not under src/), per the
DecodeRD contract of section 4.1. -/
def MakeRD (b : List Byte) : GoRes RD :=
  if b.length < 8 then .err "ErrTruncated"
  else
    let t := uint16BE (b.getD 0 0) (b.getD 1 0)
    if t > 2 then .err "ErrInvalidField"
    else .ok { rdType := t, value := (b.drop 2).take 6 }

/-- Modelled from the spec: pkg/base's MPLS label type is not under src/.
Section 4.1: DecodeLabel takes 3 bytes and returns the 20-bit label, the
3 exp bits and the bottom-of-stack bit. -/
structure Label where
  value : Nat
  exp : Nat
  bos : Bool
  deriving DecidableEq, Repr

/-- Modelled from the spec: MakeLabel of pkg/base (not under src/), per the
DecodeLabel contract of section 4.1; it fails with ErrTruncated when fewer
than 3 bytes are supplied (the caller passes the whole remaining buffer). -/
def MakeLabel (b : List Byte) : GoRes Label :=
  if b.length < 3 then .err "ErrTruncated"
  else
    let v := (b.getD 0 0).val * 65536 + (b.getD 1 0).val * 256 + (b.getD 2 0).val
    .ok { value := v / 16, exp := v / 2 % 8, bos := v % 2 = 1 }

end Base

namespace Bgpls

/-- BGP-LS TLV of pkg/bgpls, as used by part_000: numeric type and raw
value bytes (the struct itself lives in a file not under src/; its `Type`
and `Value` fields are those part_000 reads). -/
structure TLV where
  type : Nat
  value : List Byte
  deriving DecidableEq, Repr

/-- BGP-LS NLRI object of part_000: a collection of BGP-LS TLVs. -/
structure NLRI where
  LS : List TLV
  deriving DecidableEq, Repr

/-- Loop body of GetNodeFlags of part_000: skip every TLV whose type is
not 1024; on the first type-1024 TLV return `tlv.Value[0]`, which panics
when the value is empty; return 0 after the loop. -/
def getNodeFlagsLoop : List TLV → GoRes Byte
  | [] => .ok 0
  | tlv :: rest =>
    if tlv.type ≠ 1024 then getNodeFlagsLoop rest
    else
      match tlv.value with
      | [] => .panic
      | v :: _ => .ok v

/-- GetNodeFlags of part_000 on an NLRI object. -/
def GetNodeFlags (ls : NLRI) : GoRes Byte :=
  getNodeFlagsLoop ls.LS

end Bgpls

namespace Evpn

/-- Modelled from the spec: pkg/evpn's ESI type is not under src/.
Section 4.1: DecodeESI takes 10 bytes, 1 type byte plus 9 value bytes,
and the core stores the raw 9 bytes. -/
structure ESI where
  esiType : Byte
  value : List Byte
  deriving DecidableEq, Repr

/-- Modelled from the spec: MakeESI of pkg/evpn (not under src/), per the
DecodeESI contract of section 4.1; short input fails with ErrTruncated. -/
def MakeESI (b : List Byte) : GoRes ESI :=
  if b.length < 10 then .err "ErrTruncated"
  else .ok { esiType := b.getD 0 0, value := (b.drop 1).take 9 }

/-- Modelled from the spec: pkg/evpn's MAC address type is not under src/.
Section 4.1: DecodeMACAddress takes 6 bytes. -/
structure MACAddress where
  value : List Byte
  deriving DecidableEq, Repr

/-- Modelled from the spec: MakeMACAddress of pkg/evpn (not under src/),
per the DecodeMACAddress contract of section 4.1: it expects exactly 6
bytes and fails otherwise. -/
def MakeMACAddress (b : List Byte) : GoRes MACAddress :=
  if b.length ≠ 6 then .err "ErrTruncated"
  else .ok { value := b }

/-- Route type 2 (MAC IP Advertisement route) structure of
pkg/evpn/mac-ip-advertisement.go. Pointer fields that may stay nil are
Options; `EthTag` and `IPAddr` are byte slices, nil modelled as `[]`. -/
structure MACIPAdvertisement where
  RD : Base.RD
  ESI : ESI
  EthTag : List Byte
  MACAddrLength : Byte
  MACAddr : Option MACAddress
  IPAddrLength : Byte
  IPAddr : List Byte
  Label : List Base.Label
  deriving DecidableEq, Repr

/-- Trailing label loop of UnmarshalEVPNMACIPAdvertisement: while
`p < len(b)`, MakeLabel reads from `b[p:]` (failing when fewer than 3
bytes remain) and `p` advances by 3. -/
def labelLoop (b : List Byte) (p : Nat) : GoRes (List Base.Label) :=
  if p < b.length then do
    let l ← Base.MakeLabel (b.drop p)
    let rest ← labelLoop b (p + 3)
    pure (l :: rest)
  else pure []
termination_by b.length - p
decreasing_by omega

/-- UnmarshalEVPNMACIPAdvertisement of pkg/evpn/mac-ip-advertisement.go,
line by line: RD from `b[0:8]`, ESI from `b[8:18]`, then
`copy(t.EthTag, b[18:22])` — `t.EthTag` is still the nil slice at that
point, so the copy writes zero bytes and the field stays empty, though
the source slice is evaluated and can panic — then the MAC length byte,
`MACAddrLength/8` MAC bytes when nonzero, the IP length byte,
`IPAddrLength/8` IP bytes when the length byte is nonzero, and trailing
3-byte labels to the end of the buffer. -/
def UnmarshalEVPNMACIPAdvertisement (b : List Byte) : GoRes MACIPAdvertisement := do
  let rdBytes ← sliceOrPanic b 0 8
  let rd ← Base.MakeRD rdBytes
  let esiBytes ← sliceOrPanic b 8 18
  let esi ← MakeESI esiBytes
  let _ ← sliceOrPanic b 18 22
  let ethTag : List Byte := []
  let macLen ← indexOrPanic b 22
  let l := macLen.val / 8
  let macAddr ← if l ≠ 0 then do
      let mb ← sliceOrPanic b 23 (23 + l)
      let m ← MakeMACAddress mb
      pure (some m)
    else pure none
  let p1 := 23 + (if macLen.val / 8 ≠ 0 then macLen.val / 8 else 0)
  let ipLen ← indexOrPanic b p1
  let l2 := ipLen.val / 8
  let ipAddr ← if ipLen ≠ 0 then do
      let ib ← sliceOrPanic b (p1 + 1) (p1 + 1 + l2)
      pure ib
    else pure ([] : List Byte)
  let p2 := p1 + 1 + (if ipLen ≠ 0 then l2 else 0)
  let labels ← labelLoop b p2
  pure { RD := rd, ESI := esi, EthTag := ethTag, MACAddrLength := macLen,
         MACAddr := macAddr, IPAddrLength := ipLen, IPAddr := ipAddr,
         Label := labels }

/-- Well-formed EVPN route-type-2 body (the spec's scenario 4 with a
nonzero Ethernet Tag to expose the divergence): RD 0:100:1, ESI ten zero
bytes, Ethernet Tag 0x00000007, MAC aa:bb:cc:dd:ee:ff (length 48 bits),
IP 10.0.0.5 (length 32 bits), one label 10 with bottom-of-stack set. -/
def macipBody : List Byte :=
  [0, 0, 0, 100, 0, 0, 0, 1,
   0, 0, 0, 0, 0, 0, 0, 0, 0, 0,
   0, 0, 0, 7,
   48, 170, 187, 204, 221, 238, 255,
   32, 10, 0, 0, 5,
   0, 0, 161]

end Evpn

namespace Bmp

/-- Modelled from the spec: the record-kind constants of pkg/bmp are not
under src/; the spec fixes only that there are eight distinct kinds, so
they are modelled as the distinct naturals 0 through 7. -/
def PeerStateChangeMsg : Nat := 0

/-- Modelled from the spec: see PeerStateChangeMsg. -/
def UnicastPrefixMsg : Nat := 1

/-- Modelled from the spec: see PeerStateChangeMsg. -/
def LSNodeMsg : Nat := 2

/-- Modelled from the spec: see PeerStateChangeMsg. -/
def LSLinkMsg : Nat := 3

/-- Modelled from the spec: see PeerStateChangeMsg. -/
def L3VPNMsg : Nat := 4

/-- Modelled from the spec: see PeerStateChangeMsg. -/
def LSPrefixMsg : Nat := 5

/-- Modelled from the spec: see PeerStateChangeMsg. -/
def LSSRv6SIDMsg : Nat := 6

/-- Modelled from the spec: see PeerStateChangeMsg. -/
def EVPNMsg : Nat := 7

end Bmp

namespace Kafka

/-- Topic name constant of kafka-publisher.go lines 17-26. -/
def peerTopic : String := "gobmp.parsed.peer"

/-- Topic name constant of kafka-publisher.go lines 17-26. -/
def unicastMessageTopic : String := "gobmp.parsed.unicast_prefix"

/-- Topic name constant of kafka-publisher.go lines 17-26. -/
def lsNodeMessageTopic : String := "gobmp.parsed.ls_node"

/-- Topic name constant of kafka-publisher.go lines 17-26. -/
def lsLinkMessageTopic : String := "gobmp.parsed.ls_link"

/-- Topic name constant of kafka-publisher.go lines 17-26. -/
def l3vpnMessageTopic : String := "gobmp.parsed.l3vpn"

/-- Topic name constant of kafka-publisher.go lines 17-26. -/
def lsPrefixMessageTopic : String := "gobmp.parsed.ls_prefix"

/-- Topic name constant of kafka-publisher.go lines 17-26. -/
def lsSRv6SIDMessageTopic : String := "gobmp.parsed.ls_srv6_sid"

/-- Topic name constant of kafka-publisher.go lines 17-26. -/
def evpnMessageTopic : String := "gobmp.parsed.evpn"

/-- Message handed to the async producer's input channel: topic, key and
value bytes (sarama.ProducerMessage as produceMessage fills it). -/
structure ProducerMessage where
  topic : String
  key : List Byte
  value : List Byte
  deriving DecidableEq, Repr

/-- Function produceMessage of kafka-publisher.go: wraps key and msg as
byte encoders, sends one ProducerMessage on the producer's input channel
(modelled as the ok payload) and returns a nil error unconditionally. -/
def produceMessage (topic : String) (key msg : List Byte) : GoRes ProducerMessage :=
  .ok { topic := topic, key := key, value := msg }

/-- Function PublishMessage of kafka-publisher.go: an eight-way switch on
the message type dispatching to produceMessage with the matching topic
constant, and the error "not implemented" on any other type. -/
def PublishMessage (t : Nat) (key msg : List Byte) : GoRes ProducerMessage :=
  if t = Bmp.PeerStateChangeMsg then produceMessage peerTopic key msg
  else if t = Bmp.UnicastPrefixMsg then produceMessage unicastMessageTopic key msg
  else if t = Bmp.LSNodeMsg then produceMessage lsNodeMessageTopic key msg
  else if t = Bmp.LSLinkMsg then produceMessage lsLinkMessageTopic key msg
  else if t = Bmp.L3VPNMsg then produceMessage l3vpnMessageTopic key msg
  else if t = Bmp.LSPrefixMsg then produceMessage lsPrefixMessageTopic key msg
  else if t = Bmp.LSSRv6SIDMsg then produceMessage lsSRv6SIDMessageTopic key msg
  else if t = Bmp.EVPNMsg then produceMessage evpnMessageTopic key msg
  else .err "not implemented"

/-- The eight message types the PublishMessage switch recognizes. -/
def knownMsgTypes : List Nat :=
  [Bmp.PeerStateChangeMsg, Bmp.UnicastPrefixMsg, Bmp.LSNodeMsg,
   Bmp.LSLinkMsg, Bmp.L3VPNMsg, Bmp.LSPrefixMsg, Bmp.LSSRv6SIDMsg,
   Bmp.EVPNMsg]

/-- The publisher state Stop touches: whether stopCh has been closed, and
whether the broker connection is open. -/
structure PublisherState where
  stopChClosed : Bool
  brokerOpen : Bool
  deriving DecidableEq, Repr

/-- Method Stop of kafka-publisher.go lines 92-95: `close(p.stopCh)` then
`p.broker.Close()`. Go's close panics on an already-closed channel, so a
second call panics before reaching the broker; broker.Close (external
sarama) is modelled as clearing the broker flag. -/
def Stop (s : PublisherState) : GoRes PublisherState :=
  if s.stopChClosed then .panic
  else .ok { stopChClosed := true, brokerOpen := false }

/-- Per-topic error code in a CreateTopics response, as ensureTopic
distinguishes them: sarama's ErrNoError, ErrTopicAlreadyExists,
ErrRequestTimedOut, and every other code. -/
inductive TopicErr where
  | noError
  | alreadyExists
  | requestTimedOut
  | other (code : Nat)
  deriving DecidableEq, Repr

/-- Error text ensureTopic propagates when it aborts on a topic error
(returning the sarama error value itself). -/
def topicErrMessage : TopicErr → String
  | .noError => "kafka server error: no error"
  | .alreadyExists => "kafka server error: topic already exists"
  | .requestTimedOut => "kafka server error: request timed out"
  | .other code => "kafka server error code " ++ toString code

/-- Outcome of one br.CreateTopics call as ensureTopic observes it: a
transport error, or a response whose TopicErrors map may or may not hold
an entry for the requested topic. -/
inductive CreateTopicsResp where
  | transportErr (e : String)
  | resp (entry : Option TopicErr)
  deriving DecidableEq, Repr

/-- One iteration body of the ensureTopic loop, kafka-publisher.go lines
193-210, on the observed br.CreateTopics outcome: a transport error is
returned at once; a TopicErrors entry of ErrTopicAlreadyExists or
ErrNoError returns nil (success); any other entry except
ErrRequestTimedOut is returned as the error; otherwise (a timed-out
entry, or no entry for this topic) the loop falls through to the
ticker/deadline select, given here as `retry`. -/
def ensureTopicStep (r : CreateTopicsResp) (retry : GoRes Unit) : GoRes Unit :=
  match r with
  | .transportErr e => .err e
  | .resp (some e) =>
    if e = TopicErr.alreadyExists ∨ e = TopicErr.noError then .ok ()
    else if e ≠ TopicErr.requestTimedOut then .err (topicErrMessage e)
    else retry
  | .resp none => retry

/-- Retry loop of ensureTopic, kafka-publisher.go lines 174-211. Real time
is abstracted: the 100 ms ticker and the deadline timer become a tick
budget, `ticksLeft` being the number of ticker fires before the deadline
timer fires (the configured timeout divided by 100 ms), and `respond`
giving the outcome of the n-th br.CreateTopics call; once the budget is
exhausted the deadline case of the select returns the timeout error. -/
def ensureTopicLoop (respond : Nat → CreateTopicsResp) (topicName : String)
    (attempt ticksLeft : Nat) : GoRes Unit :=
  ensureTopicStep (respond attempt)
    (match ticksLeft with
     | 0 => .err ("timeout waiting for topic " ++ topicName)
     | t + 1 => ensureTopicLoop respond topicName (attempt + 1) t)

/-- Modelled from Go's net.SplitHostPort as the validator observes it: the
validator discards the error, and Go returns empty host and port alongside
any error. A bracketed address yields the host between the brackets, which
may contain colons, and the part after the closing bracket and colon; an
unbracketed address must contain exactly one colon, which separates host
from port. -/
def splitHostPort (addr : String) : String × String :=
  match addr.toList with
  | '[' :: rest =>
    let host := rest.takeWhile (fun c => c != ']')
    if host.length = rest.length then ("", "")
    else
      match rest.drop (host.length + 1) with
      | ':' :: port =>
        if port.contains ':' || port.contains ']' || port.contains '[' then ("", "")
        else (host.asString, port.asString)
      | _ => ("", "")
  | cs =>
    if cs.count ':' = 1 then
      let host := cs.takeWhile (fun c => c != ':')
      (host.asString, (cs.drop (host.length + 1)).asString)
    else ("", "")

/-- Modelled from Go's net.ParseIP, IPv4 side: four decimal parts of one
to three digits each, every part at most 255. -/
def isIPv4 (cs : List Char) : Bool :=
  let parts := cs.splitOn '.'
  parts.length == 4 && parts.all fun p =>
    decide (1 ≤ p.length) && decide (p.length ≤ 3) &&
    p.all (fun c => c.isDigit) &&
    decide (p.foldl (fun a c => a * 10 + (c.toNat - 48)) 0 ≤ 255)

/-- Modelled from Go's net.ParseIP, IPv6 side: colon-separated hex groups
of at most four digits, eight groups in full form; the placement rules of
the compressed "::" form are modelled only coarsely (no claim input
depends on them). -/
def isIPv6 (cs : List Char) : Bool :=
  let gs := cs.splitOn ':'
  cs.contains ':' &&
  gs.all (fun g => decide (g.length ≤ 4) &&
    g.all (fun c => c.isDigit || ('a' ≤ c && c ≤ 'f') || ('A' ≤ c && c ≤ 'F'))) &&
  (if gs.countP (fun g => g.isEmpty) == 0 then gs.length == 8
   else decide (gs.length ≤ 9))

/-- Modelled from Go's net.ParseIP as the validator uses it: only whether
the result is non-nil matters, true exactly for textual IPv4 and IPv6
literals. -/
def parseIPIsSome (host : String) : Bool :=
  isIPv4 host.toList || isIPv6 host.toList

/-- Decimal value of a digit run, as strconv accumulates it. -/
def digitsToNat (ds : List Char) : Nat :=
  ds.foldl (fun a c => a * 10 + (c.toNat - 48)) 0

/-- Modelled from Go's strconv.Atoi: an optional sign followed by one or
more decimal digits; anything else is an error (the 64-bit range check is
omitted, no claim input approaches it). -/
def atoi (s : String) : Option Int :=
  match s.toList with
  | [] => none
  | '+' :: ds =>
    if !ds.isEmpty && ds.all (fun c => c.isDigit) then some (digitsToNat ds)
    else none
  | '-' :: ds =>
    if !ds.isEmpty && ds.all (fun c => c.isDigit) then
      some (-(digitsToNat ds : Int))
    else none
  | ds =>
    if ds.all (fun c => c.isDigit) then some (digitsToNat ds) else none

/-- Function validator of kafka-publisher.go lines 152-172. The
`resolves` parameter models the external DNS call net.LookupIP, true when
it returns a nil error and a non-nil address list; `none` is acceptance
(nil error), `some` the error message. The port guard is the source's
`np == 0 || np > math.MaxUint16`. -/
def validator (resolves : String → Bool) (addr : String) : Option String :=
  let hp := splitHostPort addr
  if hp.1 == "" || hp.2 == "" then some "host or port cannot be ''"
  else if !resolves hp.1 && !parseIPIsSome hp.1 then
    some "fail to parse host part of address"
  else
    match atoi hp.2 with
    | none => some "fail to parse port with error"
    | some np => if np = 0 ∨ np > 65535 then some "the value of port is invalid" else none

end Kafka

/-! Theorems. -/

/-- Encoding a big-endian 16-bit read reproduces the two wire bytes. -/
theorem enc16_uint16BE (b0 b1 : Byte) : enc16 (uint16BE b0 b1) = [b0, b1] := by
  have h0 := b0.isLt
  have h1 := b1.isLt
  simp only [enc16, uint16BE, List.cons.injEq, and_true, Fin.ext_iff]
  refine ⟨?_, ?_⟩ <;> omega

/-- On success the TLV walk is a partition of the input: re-serializing the
returned TLVs gives back the input, and every value carries exactly its
declared length. -/
theorem walk_ok_roundtrip (b : List Byte) (tlvs : List Base.LinkDescriptorTLV)
    (h : Base.UnmarshalLinkDescriptorTLV b = GoRes.ok tlvs) :
    Base.encodeTLVs tlvs = b ∧ ∀ t ∈ tlvs, t.value.length = t.length := by
  induction b using Base.UnmarshalLinkDescriptorTLV.induct generalizing tlvs
  case case1 =>
    simp only [Base.UnmarshalLinkDescriptorTLV, GoRes.ok.injEq] at h
    subst h
    simp [Base.encodeTLVs]
  case case2 => simp [Base.UnmarshalLinkDescriptorTLV] at h
  case case3 => simp [Base.UnmarshalLinkDescriptorTLV] at h
  case case4 => simp [Base.UnmarshalLinkDescriptorTLV] at h
  case case5 c0 c1 c2 c3 rest len hcond tl hrec ih =>
    rw [Base.UnmarshalLinkDescriptorTLV] at h
    simp only [hcond, if_true, hrec, GoRes.ok.injEq] at h
    subst h
    obtain ⟨henc, hval⟩ := ih tl hrec
    constructor
    · simp only [Base.encodeTLVs, List.map_cons, List.flatten_cons, Base.encodeTLV] at henc ⊢
      rw [enc16_uint16BE, enc16_uint16BE, List.append_assoc, henc]
      simp [List.take_append_drop]
    · intro t ht
      rcases List.mem_cons.mp ht with h1 | h2
      · subst h1
        simp [List.length_take, Nat.min_eq_left hcond]
      · exact hval t h2
  case case6 c0 c1 c2 c3 rest len hcond e hrec ih =>
    rw [Base.UnmarshalLinkDescriptorTLV] at h
    simp only [hcond, if_true, hrec] at h
    cases h
  case case7 c0 c1 c2 c3 rest len hcond hrec ih =>
    rw [Base.UnmarshalLinkDescriptorTLV] at h
    simp only [hcond, if_true, hrec] at h
    cases h
  case case8 c0 c1 c2 c3 rest len hcond =>
    rw [Base.UnmarshalLinkDescriptorTLV] at h
    simp only [hcond, if_false] at h
    cases h

/-- Length of the wire form of a TLV sequence whose values carry their
declared lengths. -/
theorem encodeTLVs_length (tlvs : List Base.LinkDescriptorTLV)
    (hv : ∀ t ∈ tlvs, t.value.length = t.length) :
    (Base.encodeTLVs tlvs).length = (tlvs.map fun t => 4 + t.length).sum := by
  induction tlvs with
  | nil => simp [Base.encodeTLVs]
  | cons t ts ih =>
    have ht := hv t (List.mem_cons_self t ts)
    have hts := ih fun u hu => hv u (List.mem_cons_of_mem t hu)
    simp only [Base.encodeTLVs, List.map_cons, List.flatten_cons,
      List.length_append, List.sum_cons] at hts ⊢
    rw [hts]
    simp [Base.encodeTLV, enc16]
    omega

/-- C1: on every input on which UnmarshalLinkDescriptorTLV succeeds it
consumes exactly the input length: re-serializing the returned TLVs (type,
length, value for each, recognized or not) reproduces the input
byte-for-byte, the sum over the returned TLVs of (4 + length) equals the
input byte length, and each TLV carries a copy of exactly `length` value
bytes. -/
theorem tlv_walker_consumes_exactly (b : List Byte)
    (tlvs : List Base.LinkDescriptorTLV)
    (h : Base.UnmarshalLinkDescriptorTLV b = GoRes.ok tlvs) :
    Base.encodeTLVs tlvs = b ∧
    (tlvs.map fun t => 4 + t.length).sum = b.length ∧
    ∀ t ∈ tlvs, t.value.length = t.length := by
  obtain ⟨henc, hval⟩ := walk_ok_roundtrip b tlvs h
  refine ⟨henc, ?_, hval⟩
  rw [← henc]
  exact (encodeTLVs_length tlvs hval).symm

/-- Witness for C1: a concrete two-TLV input on which the walk succeeds
(one TLV of the recognized type 259, one of the unrecognized type 1027),
where the returned TLVs re-serialize to the 14-byte input and the length
sums agree. -/
theorem tlv_walker_consumes_exactly_witness :
    Base.UnmarshalLinkDescriptorTLV
        [1, 3, 0, 4, 10, 0, 0, 1, 4, 3, 0, 2, 170, 187] =
      GoRes.ok [{ type := 259, length := 4, value := [10, 0, 0, 1] },
                { type := 1027, length := 2, value := [170, 187] }] ∧
    Base.encodeTLVs [{ type := 259, length := 4, value := [10, 0, 0, 1] },
                     { type := 1027, length := 2, value := [170, 187] }] =
      [1, 3, 0, 4, 10, 0, 0, 1, 4, 3, 0, 2, 170, 187] ∧
    (([{ type := 259, length := 4, value := [10, 0, 0, 1] },
       { type := 1027, length := 2, value := [170, 187] }] :
        List Base.LinkDescriptorTLV).map fun t => 4 + t.length).sum =
      (14 : Nat) := by
  have hw : Base.UnmarshalLinkDescriptorTLV
      [1, 3, 0, 4, 10, 0, 0, 1, 4, 3, 0, 2, 170, 187] =
      GoRes.ok [{ type := 259, length := 4, value := [10, 0, 0, 1] },
                { type := 1027, length := 2, value := [170, 187] }] := by
    simp +decide [Base.UnmarshalLinkDescriptorTLV, uint16BE, Fin.coe_ofNat_eq_mod]
  have h := tlv_walker_consumes_exactly _ _ hw
  exact ⟨hw, h.1, h.2.1⟩

/-- On a truncated input (a nonempty tail shorter than a 4-byte header, or
a declared length overrunning the buffer) the walk panics. -/
theorem walk_panics_of_truncated (b : List Byte)
    (htr : Base.truncatedTLVInput b = true) :
    Base.UnmarshalLinkDescriptorTLV b = GoRes.panic := by
  induction b using Base.truncatedTLVInput.induct
  case case1 => simp [Base.truncatedTLVInput] at htr
  case case2 => simp [Base.UnmarshalLinkDescriptorTLV]
  case case3 => simp [Base.UnmarshalLinkDescriptorTLV]
  case case4 => simp [Base.UnmarshalLinkDescriptorTLV]
  case case5 c0 c1 c2 c3 rest len hcond ih =>
    rw [Base.truncatedTLVInput] at htr
    simp only [hcond, if_true] at htr
    have hp := ih htr
    rw [Base.UnmarshalLinkDescriptorTLV]
    simp only [hcond, if_true, hp]
  case case6 c0 c1 c2 c3 rest len hcond =>
    rw [Base.UnmarshalLinkDescriptorTLV]
    simp only [hcond, if_false]

/-- C2 counterexample: on the 1-byte input 0x00 — fewer than 4 bytes
remain for a TLV header — UnmarshalLinkDescriptorTLV does not return an
error result as the claim states: it panics (runtime slice out of range),
and in particular neither errs nor succeeds. -/
theorem tlv_walker_short_input_counterexample :
    Base.UnmarshalLinkDescriptorTLV [0] = GoRes.panic ∧
    (∀ e, Base.UnmarshalLinkDescriptorTLV [0] ≠ GoRes.err e) ∧
    (∀ tlvs, Base.UnmarshalLinkDescriptorTLV [0] ≠ GoRes.ok tlvs) := by
  have h : Base.UnmarshalLinkDescriptorTLV [0] = GoRes.panic := by
    simp [Base.UnmarshalLinkDescriptorTLV]
  refine ⟨h, fun e he => ?_, fun tlvs ht => ?_⟩
  · rw [h] at he
    cases he
  · rw [h] at ht
    cases ht

/-- C2 (amended): for every input to UnmarshalLinkDescriptorTLV in which
fewer than 4 bytes remain for a TLV header (with at least one byte
present), or in which a TLV's declared length exceeds the remaining
buffer, the walk panics with a runtime out-of-range — the code has no
bounds checks and its error result is always nil — so it neither
succeeds nor returns a decode error. -/
theorem tlv_walker_truncated_panics (b : List Byte)
    (htr : Base.truncatedTLVInput b = true) :
    Base.UnmarshalLinkDescriptorTLV b = GoRes.panic ∧
    ∀ e, Base.UnmarshalLinkDescriptorTLV b ≠ GoRes.err e := by
  have hp := walk_panics_of_truncated b htr
  refine ⟨hp, fun e he => ?_⟩
  rw [hp] at he
  cases he

/-- Witness for C2 (amended): the 5-byte input whose single TLV declares
length 9 with only 1 byte remaining panics and never returns an error. -/
theorem tlv_walker_truncated_panics_witness :
    Base.UnmarshalLinkDescriptorTLV [0, 4, 0, 9, 1] = GoRes.panic ∧
    ∀ e, Base.UnmarshalLinkDescriptorTLV [0, 4, 0, 9, 1] ≠ GoRes.err e :=
  tlv_walker_truncated_panics [0, 4, 0, 9, 1]
    (by simp +decide [Base.truncatedTLVInput, uint16BE, Fin.coe_ofNat_eq_mod])

/-- A TLV list with no type-1024 entry drives the node-flags loop to its
fallthrough result 0. -/
theorem getNodeFlagsLoop_none (l : List Bgpls.TLV)
    (h : ∀ tlv ∈ l, tlv.type ≠ 1024) :
    Bgpls.getNodeFlagsLoop l = GoRes.ok 0 := by
  induction l with
  | nil => rfl
  | cons tlv rest ih =>
    have ht := h tlv (List.mem_cons_self tlv rest)
    simp only [Bgpls.getNodeFlagsLoop, if_pos ht]
    exact ih fun u hu => h u (List.mem_cons_of_mem tlv hu)

/-- The node-flags loop returns the head byte of the first type-1024
entry when its value is nonempty. -/
theorem getNodeFlagsLoop_found (pre : List Bgpls.TLV) (t : Bgpls.TLV)
    (post : List Bgpls.TLV) (hpre : ∀ u ∈ pre, u.type ≠ 1024)
    (ht : t.type = 1024) (hv : t.value ≠ []) :
    Bgpls.getNodeFlagsLoop (pre ++ t :: post) = GoRes.ok (t.value.headD 0) := by
  induction pre with
  | nil =>
    obtain ⟨v, vs, hvv⟩ := List.exists_cons_of_ne_nil hv
    simp only [List.nil_append, Bgpls.getNodeFlagsLoop]
    rw [if_neg (by simp [ht]), hvv]
    simp
  | cons u pre' ih =>
    have hu := hpre u (List.mem_cons_self u pre')
    simp only [List.cons_append, Bgpls.getNodeFlagsLoop, if_pos hu]
    exact ih fun w hw => hpre w (List.mem_cons_of_mem u hw)

/-- C9: GetNodeFlags returns 0 when the NLRI's TLV list holds no TLV of
type 1024; when type-1024 TLVs are present it returns the first byte of
the value of the first one — under the precondition that this value is
nonempty — and later type-1024 TLVs and all other TLVs never affect the
result. -/
theorem get_node_flags_first_1024 :
    (∀ ls : Bgpls.NLRI, (∀ tlv ∈ ls.LS, tlv.type ≠ 1024) →
      Bgpls.GetNodeFlags ls = GoRes.ok 0) ∧
    (∀ (ls : Bgpls.NLRI) (pre post : List Bgpls.TLV) (t : Bgpls.TLV),
      ls.LS = pre ++ t :: post → (∀ u ∈ pre, u.type ≠ 1024) →
      t.type = 1024 → t.value ≠ [] →
      Bgpls.GetNodeFlags ls = GoRes.ok (t.value.headD 0)) := by
  constructor
  · intro ls h
    exact getNodeFlagsLoop_none ls.LS h
  · intro ls pre post t hls hpre ht hv
    unfold Bgpls.GetNodeFlags
    rw [hls]
    exact getNodeFlagsLoop_found pre t post hpre ht hv

/-- Witness for C9: on a list whose first type-1024 TLV is second with
value bytes 13, 9 — and a later type-1024 TLV with value 7 — the result
is 13; on a list with no type-1024 TLV the result is 0. -/
theorem get_node_flags_first_1024_witness :
    Bgpls.GetNodeFlags ⟨[⟨1023, [1]⟩, ⟨1024, [13, 9]⟩, ⟨1024, [7]⟩]⟩ =
      GoRes.ok 13 ∧
    Bgpls.GetNodeFlags ⟨[⟨1023, [1]⟩, ⟨2000, []⟩]⟩ = GoRes.ok 0 := by
  constructor
  · exact get_node_flags_first_1024.2 ⟨[⟨1023, [1]⟩, ⟨1024, [13, 9]⟩, ⟨1024, [7]⟩]⟩
      [⟨1023, [1]⟩] [⟨1024, [7]⟩] ⟨1024, [13, 9]⟩ rfl (by decide) rfl (by decide)
  · exact get_node_flags_first_1024.1 ⟨[⟨1023, [1]⟩, ⟨2000, []⟩]⟩ (by decide)

/-- C6 counterexample: from a freshly started publisher, the first Stop
succeeds (closes the stop channel and broker), but a second Stop — which
the claim says has no additional effect and does not fail or crash —
panics: close of an already-closed channel. -/
theorem stop_not_idempotent_counterexample :
    Kafka.Stop { stopChClosed := false, brokerOpen := true } =
      GoRes.ok { stopChClosed := true, brokerOpen := false } ∧
    Kafka.Stop { stopChClosed := true, brokerOpen := false } =
      GoRes.panic := by
  exact ⟨rfl, rfl⟩

/-- C6 (amended): Stop is not idempotent: after any first Stop call
completes, a second call panics (Go close of an already-closed stop
channel) instead of being a no-op. -/
theorem stop_second_call_panics (s s' : Kafka.PublisherState)
    (h : Kafka.Stop s = GoRes.ok s') :
    Kafka.Stop s' = GoRes.panic := by
  by_cases hc : s.stopChClosed
  · rw [Kafka.Stop, if_pos hc] at h
    cases h
  · rw [Kafka.Stop, if_neg hc] at h
    injection h with h2
    rw [← h2]
    rfl

/-- Witness for C6 (amended): the second Stop after stopping a freshly
started publisher panics. -/
theorem stop_second_call_panics_witness :
    Kafka.Stop { stopChClosed := true, brokerOpen := false } =
      GoRes.panic :=
  stop_second_call_panics { stopChClosed := false, brokerOpen := true }
    { stopChClosed := true, brokerOpen := false } rfl

/-- C4 counterexample: the peer-state record is produced to the topic
"gobmp.parsed.peer", not to the claimed fixed name "parsed.peer": every
topic constant carries the "gobmp." prefix. -/
theorem publish_topic_prefix_counterexample :
    Kafka.PublishMessage Bmp.PeerStateChangeMsg [] [] =
      GoRes.ok { topic := "gobmp.parsed.peer", key := [], value := [] } ∧
    Kafka.peerTopic ≠ "parsed.peer" := by
  exact ⟨rfl, by decide⟩

/-- C4 (amended): PublishMessage delivers each record kind to exactly one
fixed topic, namely the spec's topic name prefixed with "gobmp.":
"gobmp.parsed.peer", "gobmp.parsed.unicast_prefix", "gobmp.parsed.ls_node",
"gobmp.parsed.ls_link", "gobmp.parsed.l3vpn", "gobmp.parsed.ls_prefix",
"gobmp.parsed.ls_srv6_sid", "gobmp.parsed.evpn". -/
theorem publish_topics_gobmp_prefixed (key msg : List Byte) :
    Kafka.PublishMessage Bmp.PeerStateChangeMsg key msg =
      GoRes.ok { topic := "gobmp.parsed.peer", key := key, value := msg } ∧
    Kafka.PublishMessage Bmp.UnicastPrefixMsg key msg =
      GoRes.ok { topic := "gobmp.parsed.unicast_prefix", key := key, value := msg } ∧
    Kafka.PublishMessage Bmp.LSNodeMsg key msg =
      GoRes.ok { topic := "gobmp.parsed.ls_node", key := key, value := msg } ∧
    Kafka.PublishMessage Bmp.LSLinkMsg key msg =
      GoRes.ok { topic := "gobmp.parsed.ls_link", key := key, value := msg } ∧
    Kafka.PublishMessage Bmp.L3VPNMsg key msg =
      GoRes.ok { topic := "gobmp.parsed.l3vpn", key := key, value := msg } ∧
    Kafka.PublishMessage Bmp.LSPrefixMsg key msg =
      GoRes.ok { topic := "gobmp.parsed.ls_prefix", key := key, value := msg } ∧
    Kafka.PublishMessage Bmp.LSSRv6SIDMsg key msg =
      GoRes.ok { topic := "gobmp.parsed.ls_srv6_sid", key := key, value := msg } ∧
    Kafka.PublishMessage Bmp.EVPNMsg key msg =
      GoRes.ok { topic := "gobmp.parsed.evpn", key := key, value := msg } := by
  exact ⟨rfl, rfl, rfl, rfl, rfl, rfl, rfl, rfl⟩

/-- C10: PublishMessage returns an error exactly when its message-type
argument is not one of the eight known record kinds; for each known kind
it returns nil for every key and body, enqueuing them unchanged without
inspecting the payload. -/
theorem publish_message_error_iff (t : Nat) (key msg : List Byte) :
    (Kafka.PublishMessage t key msg = GoRes.err "not implemented" ↔
      t ∉ Kafka.knownMsgTypes) ∧
    (t ∈ Kafka.knownMsgTypes →
      ∃ topic, Kafka.PublishMessage t key msg =
        GoRes.ok { topic := topic, key := key, value := msg }) := by
  unfold Kafka.PublishMessage Kafka.knownMsgTypes Kafka.produceMessage
  unfold Bmp.PeerStateChangeMsg Bmp.UnicastPrefixMsg Bmp.LSNodeMsg
    Bmp.LSLinkMsg Bmp.L3VPNMsg Bmp.LSPrefixMsg Bmp.LSSRv6SIDMsg Bmp.EVPNMsg
  split_ifs with h0 h1 h2 h3 h4 h5 h6 h7 <;>
    first
      | (refine ⟨?_, fun hm => ⟨_, rfl⟩⟩ <;> simp_all)
      | (refine ⟨?_, fun hm => ?_⟩ <;> simp_all)

/-- Witness for C10: kind 7 (the EVPN record kind) is known and is
accepted with an arbitrary key and body; kind 99 is unknown and errs. -/
theorem publish_message_error_iff_witness :
    ((7 : Nat) ∈ Kafka.knownMsgTypes) ∧
    (∃ topic, Kafka.PublishMessage 7 [1] [2] =
      GoRes.ok { topic := topic, key := [1], value := [2] }) ∧
    Kafka.PublishMessage 99 [] [] = GoRes.err "not implemented" := by
  refine ⟨by decide, (publish_message_error_iff 7 [1] [2]).2 (by decide), ?_⟩
  exact (publish_message_error_iff 99 [] []).1.mpr (by decide)

/-- C5: validator at the spec's boundary inputs and at the failing input:
the bracketed literal "[::1]:9092" is accepted, "localhost:0" is rejected
(port zero), but "1.2.3.4:-1" — a port outside 1..65535 — is accepted,
because the guard checks only np == 0 and np > 65535 and Atoi parses -1;
the claim (and the spec's port range 1..65535) requires rejection. -/
theorem validator_negative_port_accepted :
    Kafka.validator (fun _ => false) "[::1]:9092" = none ∧
    Kafka.validator (fun _ => true) "localhost:0" =
      some "the value of port is invalid" ∧
    Kafka.validator (fun _ => false) "1.2.3.4:-1" = none := by
  exact ⟨by decide, by decide, by decide⟩

/-- C7: topic-provisioning policy of the ensureTopic retry loop: a
topic-already-exists (or no-error) entry is immediate success; any other
topic error except request-timed-out aborts at once with that error; and
when every CreateTopics call reports request-timed-out, the loop retries
once per tick until the deadline and then fails with the timeout error. -/
theorem ensure_topic_retry_policy :
    (∀ (respond : Nat → Kafka.CreateTopicsResp) (topicName : String)
       (attempt ticks : Nat) (e : Kafka.TopicErr),
      respond attempt = Kafka.CreateTopicsResp.resp (some e) →
      (e = Kafka.TopicErr.alreadyExists ∨ e = Kafka.TopicErr.noError) →
      Kafka.ensureTopicLoop respond topicName attempt ticks = GoRes.ok ()) ∧
    (∀ (respond : Nat → Kafka.CreateTopicsResp) (topicName : String)
       (attempt ticks : Nat) (e : Kafka.TopicErr),
      respond attempt = Kafka.CreateTopicsResp.resp (some e) →
      e ≠ Kafka.TopicErr.alreadyExists → e ≠ Kafka.TopicErr.noError →
      e ≠ Kafka.TopicErr.requestTimedOut →
      Kafka.ensureTopicLoop respond topicName attempt ticks =
        GoRes.err (Kafka.topicErrMessage e)) ∧
    (∀ (respond : Nat → Kafka.CreateTopicsResp) (topicName : String)
       (attempt ticks : Nat),
      (∀ n, respond n =
        Kafka.CreateTopicsResp.resp (some Kafka.TopicErr.requestTimedOut)) →
      Kafka.ensureTopicLoop respond topicName attempt ticks =
        GoRes.err ("timeout waiting for topic " ++ topicName)) := by
  refine ⟨?_, ?_, ?_⟩
  · intro respond topicName attempt ticks e hresp he
    rw [Kafka.ensureTopicLoop.eq_def, hresp, Kafka.ensureTopicStep]
    simp only [if_pos he]
  · intro respond topicName attempt ticks e hresp h1 h2 h3
    rw [Kafka.ensureTopicLoop.eq_def, hresp, Kafka.ensureTopicStep]
    rw [if_neg (by simp [h1, h2])]
    rw [if_pos h3]
  · intro respond topicName attempt ticks hall
    induction ticks generalizing attempt with
    | zero =>
      rw [Kafka.ensureTopicLoop.eq_def, hall attempt, Kafka.ensureTopicStep]
      simp
    | succ t ih =>
      rw [Kafka.ensureTopicLoop.eq_def, hall attempt, Kafka.ensureTopicStep]
      simpa using ih (attempt + 1)

/-- Witness for C7: with concrete response streams, an already-exists
entry succeeds at once, an unrelated topic error aborts with that error,
and all-timed-out responses exhaust a 2-tick deadline with the timeout
error. -/
theorem ensure_topic_retry_policy_witness :
    Kafka.ensureTopicLoop
        (fun _ => Kafka.CreateTopicsResp.resp
          (some Kafka.TopicErr.alreadyExists)) "a" 0 5 = GoRes.ok () ∧
    Kafka.ensureTopicLoop
        (fun _ => Kafka.CreateTopicsResp.resp
          (some (Kafka.TopicErr.other 41))) "b" 0 5 =
      GoRes.err (Kafka.topicErrMessage (Kafka.TopicErr.other 41)) ∧
    Kafka.ensureTopicLoop
        (fun _ => Kafka.CreateTopicsResp.resp
          (some Kafka.TopicErr.requestTimedOut)) "c" 0 2 =
      GoRes.err ("timeout waiting for topic " ++ "c") := by
  refine ⟨?_, ?_, ?_⟩
  · exact ensure_topic_retry_policy.1 _ "a" 0 5 Kafka.TopicErr.alreadyExists
      rfl (Or.inl rfl)
  · exact ensure_topic_retry_policy.2.1 _ "b" 0 5 (Kafka.TopicErr.other 41)
      rfl (by decide) (by decide) (by decide)
  · exact ensure_topic_retry_policy.2.2 _ "c" 0 2 fun n => rfl

/-- Sequencing from a successful call proceeds with its result. -/
@[simp] theorem ok_bind {α β : Type} (a : α) (f : α → GoRes β) :
    (GoRes.ok a >>= f) = f a := rfl

/-- An error return aborts the rest of the function. -/
@[simp] theorem err_bind {α β : Type} (e : String) (f : α → GoRes β) :
    ((GoRes.err e : GoRes α) >>= f) = GoRes.err e := rfl

/-- A panic aborts the rest of the function. -/
@[simp] theorem panic_bind {α β : Type} (f : α → GoRes β) :
    ((GoRes.panic : GoRes α) >>= f) = GoRes.panic := rfl

/-- Lifting a pure value is a nil-error return. -/
@[simp] theorem pure_eq_ok {α : Type} (a : α) :
    (pure a : GoRes α) = GoRes.ok a := rfl

/-- C3: evaluation of UnmarshalEVPNMACIPAdvertisement on a well-formed
route-type-2 body: RD, ESI, MAC address, IP address and label list all
match the wire fields, but the Ethernet Tag — bytes 18..21 of the input,
here 0x00000007 — is NOT carried into the record: copy(t.EthTag, ...)
writes into the still-nil EthTag slice, so the field stays empty. -/
theorem evpn_macip_ethtag_left_empty :
    Evpn.UnmarshalEVPNMACIPAdvertisement Evpn.macipBody =
      GoRes.ok { RD := { rdType := 0, value := [0, 100, 0, 0, 0, 1] },
                 ESI := { esiType := 0, value := [0, 0, 0, 0, 0, 0, 0, 0, 0] },
                 EthTag := [],
                 MACAddrLength := 48,
                 MACAddr := some { value := [170, 187, 204, 221, 238, 255] },
                 IPAddrLength := 32,
                 IPAddr := [10, 0, 0, 5],
                 Label := [{ value := 10, exp := 0, bos := true }] } ∧
    (Evpn.macipBody.drop 18).take 4 = [0, 0, 0, 7] ∧
    ([] : List Byte) ≠ [0, 0, 0, 7] := by
  refine ⟨?_, by decide, by decide⟩
  have hl37 : Evpn.labelLoop Evpn.macipBody 37 = GoRes.ok [] := by
    rw [Evpn.labelLoop]
    rw [if_neg (by decide)]
    rfl
  have hl34 : Evpn.labelLoop Evpn.macipBody 34 =
      GoRes.ok [{ value := 10, exp := 0, bos := true }] := by
    rw [Evpn.labelLoop]
    rw [if_pos (by decide)]
    rw [show Base.MakeLabel (Evpn.macipBody.drop 34) =
      GoRes.ok { value := 10, exp := 0, bos := true } from by decide]
    simp only [ok_bind]
    rw [hl37]
    rfl
  rw [Evpn.UnmarshalEVPNMACIPAdvertisement]
  rw [show sliceOrPanic Evpn.macipBody 0 8 =
    GoRes.ok [0, 0, 0, 100, 0, 0, 0, 1] from by decide]
  simp only [ok_bind]
  rw [show Base.MakeRD [0, 0, 0, 100, 0, 0, 0, 1] =
    GoRes.ok { rdType := 0, value := [0, 100, 0, 0, 0, 1] } from by decide]
  simp only [ok_bind]
  rw [show sliceOrPanic Evpn.macipBody 8 18 =
    GoRes.ok [0, 0, 0, 0, 0, 0, 0, 0, 0, 0] from by decide]
  simp only [ok_bind]
  rw [show Evpn.MakeESI [0, 0, 0, 0, 0, 0, 0, 0, 0, 0] =
    GoRes.ok { esiType := 0, value := [0, 0, 0, 0, 0, 0, 0, 0, 0] } from by decide]
  simp only [ok_bind]
  rw [show sliceOrPanic Evpn.macipBody 18 22 =
    GoRes.ok [0, 0, 0, 7] from by decide]
  simp only [ok_bind]
  rw [show indexOrPanic Evpn.macipBody 22 = GoRes.ok 48 from by decide]
  simp only [ok_bind]
  rw [if_pos (by decide : ((48 : Byte) : Nat) / 8 ≠ 0)]
  rw [show sliceOrPanic Evpn.macipBody 23 (23 + ((48 : Byte) : Nat) / 8) =
    GoRes.ok [170, 187, 204, 221, 238, 255] from by decide]
  simp only [ok_bind]
  rw [show Evpn.MakeMACAddress [170, 187, 204, 221, 238, 255] =
    GoRes.ok { value := [170, 187, 204, 221, 238, 255] } from by decide]
  simp only [ok_bind, pure_eq_ok]
  rw [if_pos (by decide : ((48 : Byte) : Nat) / 8 ≠ 0)]
  rw [show indexOrPanic Evpn.macipBody (23 + ((48 : Byte) : Nat) / 8) =
    GoRes.ok 32 from by decide]
  simp only [ok_bind]
  rw [if_pos (by decide : (32 : Byte) ≠ 0)]
  rw [show sliceOrPanic Evpn.macipBody (23 + ((48 : Byte) : Nat) / 8 + 1)
      (23 + ((48 : Byte) : Nat) / 8 + 1 + ((32 : Byte) : Nat) / 8) =
    GoRes.ok [10, 0, 0, 5] from by decide]
  simp only [ok_bind, pure_eq_ok]
  rw [show (23 + ((48 : Byte) : Nat) / 8 + 1 +
      (if (32 : Byte) ≠ 0 then ((32 : Byte) : Nat) / 8 else 0)) = 34 from by decide]
  rw [hl34]
  simp only [ok_bind, pure_eq_ok]

/-- A sequenced Go computation that returns nil succeeded at every step:
the first call returned ok and the continuation returned ok. -/
theorem bind_eq_ok {α β : Type} (x : GoRes α) (f : α → GoRes β) (r : β)
    (h : (x >>= f) = GoRes.ok r) : ∃ a, x = GoRes.ok a ∧ f a = GoRes.ok r := by
  cases x with
  | ok a => exact ⟨a, rfl, h⟩
  | err e => cases h
  | panic => cases h

/-- A successful Go index expression implies the index is in bounds. -/
theorem indexOrPanic_ok_lt (b : List Byte) (i : Nat) (v : Byte)
    (h : indexOrPanic b i = GoRes.ok v) : i < b.length := by
  by_cases hc : i < b.length
  · exact hc
  · rw [indexOrPanic, dif_neg hc] at h
    cases h

/-- C8 counterexample: on the empty body — shorter than the fixed
RD/ESI/Ethernet-Tag header — UnmarshalEVPNMACIPAdvertisement does not
return an error as the claim states: the slice b[0:8] panics. -/
theorem evpn_macip_empty_input_counterexample :
    Evpn.UnmarshalEVPNMACIPAdvertisement [] = GoRes.panic ∧
    ∀ e, Evpn.UnmarshalEVPNMACIPAdvertisement [] ≠ GoRes.err e := by
  have h : Evpn.UnmarshalEVPNMACIPAdvertisement [] = GoRes.panic := by
    rw [Evpn.UnmarshalEVPNMACIPAdvertisement]
    rw [show sliceOrPanic [] 0 8 = GoRes.panic from by decide]
    rfl
  refine ⟨h, fun e he => ?_⟩
  rw [h] at he
  cases he

/-- C8 (amended): UnmarshalEVPNMACIPAdvertisement is not total over short
bodies: any body shorter than 8 bytes panics via the out-of-bounds slice
b[0:8] rather than returning an error, and no body shorter than 23 bytes
(the fixed RD, ESI and Ethernet-Tag fields, the MAC length byte, and the
IP length byte with a zero MAC length) ever yields a parsed route — it
panics or, when the RD bytes decode to an invalid type, returns the RD
error; an error return on truncation is guaranteed only in the trailing
label section. -/
theorem evpn_macip_short_input (b : List Byte) :
    (b.length < 8 → Evpn.UnmarshalEVPNMACIPAdvertisement b = GoRes.panic) ∧
    (b.length < 23 → ∀ r, Evpn.UnmarshalEVPNMACIPAdvertisement b ≠ GoRes.ok r) := by
  constructor
  · intro h8
    rw [Evpn.UnmarshalEVPNMACIPAdvertisement]
    rw [show sliceOrPanic b 0 8 = GoRes.panic from by
      rw [sliceOrPanic, if_neg]
      omega]
    rfl
  · intro h23 r hok
    rw [Evpn.UnmarshalEVPNMACIPAdvertisement] at hok
    obtain ⟨rdBytes, h1, hok⟩ := bind_eq_ok _ _ _ hok
    obtain ⟨rd, h2, hok⟩ := bind_eq_ok _ _ _ hok
    obtain ⟨esiBytes, h3, hok⟩ := bind_eq_ok _ _ _ hok
    obtain ⟨esi, h4, hok⟩ := bind_eq_ok _ _ _ hok
    obtain ⟨tagBytes, h5, hok⟩ := bind_eq_ok _ _ _ hok
    obtain ⟨macLen, h6, hok⟩ := bind_eq_ok _ _ _ hok
    have := indexOrPanic_ok_lt b 22 macLen h6
    omega

/-- Witness for C8 (amended): the 1-byte body panics and never returns a
parsed route. -/
theorem evpn_macip_short_input_witness :
    Evpn.UnmarshalEVPNMACIPAdvertisement [0] = GoRes.panic ∧
    ∀ r, Evpn.UnmarshalEVPNMACIPAdvertisement [0] ≠ GoRes.ok r :=
  ⟨(evpn_macip_short_input [0]).1 (by decide),
   (evpn_macip_short_input [0]).2 (by decide)⟩

end Gobmp
